import Mathlib

/-!
# Resource management client (`pkg/fab/resource/resource.go`)

A shallow embedding of the channel and chaincode resource-management functions of
`resource.go`.  Go values are Lean data; a Go function that returns `(T, error)`
returns a pair whose second component is `Option Error` (`none` is the nil error).

The functions talk to collaborators that live outside `resource.go` (package `txn`,
the orderer and peer clients, the protobuf codec).  These are the fields of `Env`.
Every call that builds a protocol message or reaches a node appends one `Event` to a
trace, and the answer of such a collaborator may depend on the whole trace so far, so
that no assumption is made about how a node, a nonce generator or a clock behaves.
-/

namespace Resource

/-! ## Data model -/

/-- Go byte slice; `none` is the nil slice, `some []` an empty non-nil slice. -/
abbrev Bytes := Option (List Nat)

/-- Type `fab.TransactionID` is a string type. -/
abbrev TransactionID := String

/-- Modelled from the spec: the constant `fab.EmptyTransactionID` is declared outside
`resource.go`; it is "the empty transaction ID", the empty string. -/
def EmptyTransactionID : TransactionID := ""

/-- Modelled from the spec: the constant `fab.SystemChannel` is declared outside
`resource.go`; system-chaincode requests are addressed to the unnamed system channel. -/
def SystemChannel : String := ""

/-- Value `http.StatusOK`. -/
def StatusOK : Int := 200

/-- An ordering node (interface `fab.Orderer`), identified by its endpoint. -/
abbrev Orderer := String

/-- An endorsing peer (interface `fab.ProposalProcessor`), identified by its endpoint. -/
abbrev ProposalProcessor := String

/-- Go errors.  `new`, `errorf`, `withMessage` and `wrap` are the constructors of
`github.com/pkg/errors` used in `resource.go` (`errorf` keeps the format string and its
`%s` and `%d` arguments apart); `external` is an error produced by a collaborator;
`aggregate` is a non-empty `multi.Errors` value seen through the `error` interface. -/
inductive Error where
  | new (msg : String)
  | errorf (format : String) (s : String) (d : Int)
  | withMessage (cause : Error) (msg : String)
  | wrap (cause : Error) (msg : String)
  | external (code : Nat)
  | aggregate (errs : List Error)

/-- The client context carried by a request context. -/
structure ClientContext where
  identity : Nat
  deriving DecidableEq, Repr

/-- The request context `reqCtx`; `client` is what `RequestClientContext` can extract. -/
structure ReqContext where
  client : Option ClientContext
  deriving DecidableEq, Repr

/-- Function `contextImpl.RequestClientContext`: the pair `(ctx, ok)` as an option. -/
def RequestClientContext (reqCtx : ReqContext) : Option ClientContext := reqCtx.client

/-- Type `txn.TransactionHeader`. -/
structure TransactionHeader where
  id : TransactionID
  creator : Bytes
  nonce : Bytes
  channelID : String
  deriving DecidableEq, Repr

/-- Method `TransactionHeader.TransactionID`. -/
def TransactionHeader.TransactionID (txh : TransactionHeader) : TransactionID := txh.id

/-- Enumeration `common.HeaderType`, the two values of the wire format. -/
inductive HeaderType where
  | CONFIG_UPDATE
  | ENDORSER_TRANSACTION
  deriving DecidableEq, Repr

/-- Type `txn.ChannelHeaderOpts`. -/
structure ChannelHeaderOpts where
  TxnHeader : TransactionHeader
  TLSCertHash : Bytes
  deriving DecidableEq, Repr

/-- Type `common.ChannelHeader`. -/
structure ChannelHeader where
  headerType : HeaderType
  ChannelId : String
  TxId : String
  TlsCertHash : Bytes
  deriving DecidableEq, Repr

/-- Type `common.Payload`. -/
structure Payload where
  Header : ChannelHeader
  Data : Bytes
  deriving DecidableEq, Repr

/-- Type `common.Envelope`: a decoded wire envelope. -/
structure Envelope where
  Payload : Bytes
  Signature : Bytes
  deriving DecidableEq, Repr

/-- Type `fab.SignedEnvelope`. -/
structure SignedEnvelope where
  Payload : Bytes
  Signature : Bytes
  deriving DecidableEq, Repr

/-- Type `common.ConfigSignature`. -/
structure ConfigSignature where
  SignatureHeader : Bytes
  Signature : Bytes
  deriving DecidableEq, Repr

/-- Type `common.ConfigUpdateEnvelope`; `Signatures` may be the nil slice. -/
structure ConfigUpdateEnvelope where
  ConfigUpdate : Bytes
  Signatures : Option (List ConfigSignature)
  deriving DecidableEq, Repr

/-- Type `api.CreateChannelRequest`; a nil orderer, config, envelope or signature slice
is `none`. -/
structure CreateChannelRequest where
  Name : String
  Orderer : Option Orderer
  Config : Bytes
  Envelope : Bytes
  Signatures : Option (List ConfigSignature)
  deriving DecidableEq, Repr

/-- Modelled from the spec: the seek position of a block read, one of `Oldest`, `Newest`
and `Specific(blockIndex)`. -/
inductive SeekPosition where
  | Oldest
  | Newest
  | Specific (index : Nat)
  deriving DecidableEq, Repr

/-- Modelled from the spec: function `newNewestSeekPosition` is declared outside
`resource.go`; it builds the seek position `Newest`. -/
def newNewestSeekPosition : SeekPosition := SeekPosition.Newest

/-- Modelled from the spec: function `newSpecificSeekPosition` is declared outside
`resource.go`; it builds the seek position `Specific(index)`. -/
def newSpecificSeekPosition (index : Nat) : SeekPosition := SeekPosition.Specific index

/-- Type `common.Block`: `Number` is `Header.Number`, `Data` is `Data.Data`, the list of
transaction envelopes. -/
structure Block where
  Number : Nat
  Data : List Bytes
  Metadata : List Bytes
  deriving DecidableEq, Repr

/-- Type `common.LastConfig`. -/
structure LastConfig where
  Index : Nat
  deriving DecidableEq, Repr

/-- Type `api.JoinChannelRequest`; a nil block pointer is `none`. -/
structure JoinChannelRequest where
  GenesisBlock : Option Block
  deriving DecidableEq, Repr

/-- Type `fab.ChaincodeInvokeRequest`. -/
structure ChaincodeInvokeRequest where
  ChaincodeID : String
  Fcn : String
  Args : List Bytes
  deriving DecidableEq, Repr

/-- Type `api.CCPackage`. -/
structure CCPackage where
  Type_ : Nat
  Code : Bytes
  deriving DecidableEq, Repr

/-- Type `api.InstallChaincodeRequest`; a nil package pointer is `none`. -/
structure InstallChaincodeRequest where
  Name : String
  Path : String
  Version : String
  Package : Option CCPackage
  deriving DecidableEq, Repr

/-- Type `ChaincodePackage` of package `resource`. -/
structure ChaincodePackage where
  Type_ : Nat
  Code : Bytes
  deriving DecidableEq, Repr

/-- Type `ChaincodeInstallRequest` of package `resource`. -/
structure ChaincodeInstallRequest where
  Name : String
  Path : String
  Version : String
  Package : ChaincodePackage
  deriving DecidableEq, Repr

/-- Type `fab.TransactionProposal`. -/
structure TransactionProposal where
  TxnID : TransactionID
  Proposal : Bytes
  deriving DecidableEq, Repr

/-- Type `fab.TransactionProposalResponse`: the endorser, the status, and the payload
read by `ProposalResponse.GetResponse().Payload` (the embedded protobuf response is
taken as present). -/
structure TransactionProposalResponse where
  Endorser : String
  Status : Int
  Payload : Bytes
  deriving DecidableEq, Repr

/-! ## Collaborators and their trace -/

/-- One recorded call to a collaborator, with the arguments of the call. -/
inductive Event where
  | NewHeader (ctx : ClientContext) (channel : String)
  | CreateChaincodeInvokeProposal (txh : TransactionHeader) (request : ChaincodeInvokeRequest)
  | CreateChaincodeInstallProposal (txh : TransactionHeader) (request : ChaincodeInstallRequest)
  | SendProposal (proposal : TransactionProposal) (targets : List ProposalProcessor)
  | SendBroadcast (orderer : Orderer) (envelope : SignedEnvelope)
  | MarshalConfigUpdateEnvelope (envelope : ConfigUpdateEnvelope)
  | CreateChannelHeader (headerType : HeaderType) (opts : ChannelHeaderOpts)
  | CreatePayload (txh : TransactionHeader) (channelHeader : ChannelHeader) (data : Bytes)
  | BroadcastPayload (payload : Payload) (orderers : List Orderer)
  | retrieveBlock (orderers : List Orderer) (channel : String) (pos : SeekPosition)
  deriving DecidableEq, Repr

/-- The calls made so far, oldest first. -/
abbrev Trace := List Event

/-- The collaborators of `resource.go`.  A recorded collaborator receives the trace of
the calls made before it; decoders and accessors are plain functions. -/
structure Env where
  NewHeader : Trace → ClientContext → String → Except Error TransactionHeader
  CreateChaincodeInvokeProposal :
    Trace → TransactionHeader → ChaincodeInvokeRequest → Except Error TransactionProposal
  CreateChaincodeInstallProposal :
    Trace → TransactionHeader → ChaincodeInstallRequest → Except Error TransactionProposal
  SendProposal : Trace → ReqContext → TransactionProposal → List ProposalProcessor →
    List TransactionProposalResponse × Option Error
  SendBroadcast : Trace → ReqContext → Orderer → SignedEnvelope → Option Error
  Unmarshal : Bytes → Except Error Envelope
  Marshal : Trace → ConfigUpdateEnvelope → Except Error Bytes
  TLSCertHash : ClientContext → Bytes
  CreateChannelHeader : Trace → HeaderType → ChannelHeaderOpts → Except Error ChannelHeader
  CreatePayload : Trace → TransactionHeader → ChannelHeader → Bytes → Except Error Payload
  BroadcastPayload : Trace → ReqContext → Payload → List Orderer → Option Error
  retrieveBlock : Trace → ReqContext → List Orderer → String → SeekPosition → Except Error Block
  GetLastConfigFromBlock : Block → Except Error LastConfig
  createJoinChannelInvokeRequest : Block → Except Error ChaincodeInvokeRequest

/-- Modelled from the spec: method `multi.Errors.ToError` belongs to package `multi`,
which is not part of `resource.go`.  The aggregate error "is non-nil iff the collected
list is non-empty" and "wraps" the per-target errors in their order. -/
def ToError (errs : List Error) : Option Error :=
  match errs with
  | [] => none
  | e :: es => some (Error.aggregate (e :: es))

/-! ## The functions of `resource.go` -/

/-- Function `extractSignedEnvelope`: decode the request envelope and copy its signature
and payload. -/
def extractSignedEnvelope (env : Env) (reqEnvelope : Bytes) : Except Error SignedEnvelope :=
  match env.Unmarshal reqEnvelope with
  | .error err => .error (Error.wrap err "unmarshal request envelope failed")
  | .ok envelope => .ok { Signature := envelope.Signature, Payload := envelope.Payload }

/-- Function `createChannelFromEnvelope`; `orderer` is the non-nil `request.Orderer`. -/
def createChannelFromEnvelope (env : Env) (reqCtx : ReqContext) (request : CreateChannelRequest)
    (orderer : Orderer) (h : Trace) : (TransactionID × Option Error) × Trace :=
  match extractSignedEnvelope env request.Envelope with
  | .error err => ((EmptyTransactionID, some (Error.withMessage err "signed envelope not valid")), h)
  | .ok se =>
    match env.SendBroadcast h reqCtx orderer se with
    | some err =>
      ((EmptyTransactionID, some (Error.withMessage err "failed broadcast to orderer")),
        h ++ [Event.SendBroadcast orderer se])
    | none => ((EmptyTransactionID, none), h ++ [Event.SendBroadcast orderer se])

/-- Function `createOrUpdateChannel`; `orderer` is the non-nil `request.Orderer`. -/
def createOrUpdateChannel (env : Env) (reqCtx : ReqContext) (txh : TransactionHeader)
    (request : CreateChannelRequest) (orderer : Orderer) (h : Trace) : Option Error × Trace :=
  let configUpdateEnvelope : ConfigUpdateEnvelope :=
    { ConfigUpdate := request.Config, Signatures := request.Signatures }
  let h1 := h ++ [Event.MarshalConfigUpdateEnvelope configUpdateEnvelope]
  match env.Marshal h configUpdateEnvelope with
  | .error err => (some (Error.wrap err "marshal configUpdateEnvelope failed"), h1)
  | .ok configUpdateEnvelopeBytes =>
    match RequestClientContext reqCtx with
    | none =>
      (some (Error.new "failed get client context from reqContext for Creating ChannelHeader"), h1)
    | some ctx =>
      let channelHeaderOpts : ChannelHeaderOpts :=
        { TxnHeader := txh, TLSCertHash := env.TLSCertHash ctx }
      let h2 := h1 ++ [Event.CreateChannelHeader HeaderType.CONFIG_UPDATE channelHeaderOpts]
      match env.CreateChannelHeader h1 HeaderType.CONFIG_UPDATE channelHeaderOpts with
      | .error err => (some (Error.withMessage err "CreateChannelHeader failed"), h2)
      | .ok channelHeader =>
        let h3 := h2 ++ [Event.CreatePayload txh channelHeader configUpdateEnvelopeBytes]
        match env.CreatePayload h2 txh channelHeader configUpdateEnvelopeBytes with
        | .error err => (some (Error.withMessage err "CreatePayload failed"), h3)
        | .ok payload =>
          let h4 := h3 ++ [Event.BroadcastPayload payload [orderer]]
          match env.BroadcastPayload h3 reqCtx payload [orderer] with
          | some err => (some (Error.withMessage err "SendEnvelope failed"), h4)
          | none => (none, h4)

/-- Function `CreateChannel`: the transaction ID and the error it returns, and the trace
after the call. -/
def CreateChannel (env : Env) (reqCtx : ReqContext) (request : CreateChannelRequest)
    (h : Trace) : (TransactionID × Option Error) × Trace :=
  match request.Orderer with
  | none =>
    ((EmptyTransactionID,
      some (Error.new "missing orderer request parameter for the initialize channel")), h)
  | some orderer =>
    if request.Name = "" then
      ((EmptyTransactionID,
        some (Error.new "missing name request parameter for the new channel")), h)
    else if request.Envelope ≠ none then
      createChannelFromEnvelope env reqCtx request orderer h
    else if request.Config = none then
      ((EmptyTransactionID, some (Error.new
        "missing envelope request parameter containing the configuration of the new channel")), h)
    else if request.Signatures = none then
      ((EmptyTransactionID,
        some (Error.new "missing signatures request parameter for the new channel")), h)
    else
      match RequestClientContext reqCtx with
      | none =>
        ((EmptyTransactionID, some (Error.new
          "creation of transaction header failed, failed to extract client context from reqContext")),
          h)
      | some ctx =>
        match env.NewHeader h ctx request.Name with
        | .error err =>
          ((EmptyTransactionID,
            some (Error.withMessage err "creation of transaction header failed")),
            h ++ [Event.NewHeader ctx request.Name])
        | .ok txh =>
          let r := createOrUpdateChannel env reqCtx txh request orderer
            (h ++ [Event.NewHeader ctx request.Name])
          ((txh.TransactionID, r.1), r.2)

/-- Function `LastConfigFromOrderer`: the block and the error it returns, and the trace
after the call. -/
def LastConfigFromOrderer (env : Env) (reqCtx : ReqContext) (channelName : String)
    (orderer : Orderer) (h : Trace) : (Option Block × Option Error) × Trace :=
  let h1 := h ++ [Event.retrieveBlock [orderer] channelName newNewestSeekPosition]
  match env.retrieveBlock h reqCtx [orderer] channelName newNewestSeekPosition with
  | .error err => ((none, some err), h1)
  | .ok block =>
    match env.GetLastConfigFromBlock block with
    | .error err => ((none, some (Error.wrap err "GetLastConfigFromBlock failed")), h1)
    | .ok lastConfig =>
      let h2 := h1 ++
        [Event.retrieveBlock [orderer] channelName (newSpecificSeekPosition lastConfig.Index)]
      match env.retrieveBlock h1 reqCtx [orderer] channelName
          (newSpecificSeekPosition lastConfig.Index) with
      | .error err => ((none, some (Error.withMessage err "retrieve block failed")), h2)
      | .ok block =>
        if block.Data.length ≠ 1 then
          ((none, some (Error.new "apiconfig block must contain one transaction")), h2)
        else
          ((some block, none), h2)

/-- Function `validateResponse`. -/
def validateResponse (response : TransactionProposalResponse) : Option Error :=
  if response.Status ≠ StatusOK then
    some (Error.errorf "bad status from %s (%d)" response.Endorser response.Status)
  else
    none

/-- Function `queryChaincodeWithTarget`: the payload and the error it returns, and the
trace after the call.  The result is `none` when the call does not return: `tpr[0]` on an
empty response list is a run-time panic. -/
def queryChaincodeWithTarget (env : Env) (reqCtx : ReqContext) (request : ChaincodeInvokeRequest)
    (target : ProposalProcessor) (h : Trace) : Option ((Bytes × Option Error) × Trace) :=
  let targets := [target]
  match RequestClientContext reqCtx with
  | none =>
    some ((none, some (Error.new "failed get client context from reqContext for txn header")), h)
  | some ctx =>
    let h1 := h ++ [Event.NewHeader ctx SystemChannel]
    match env.NewHeader h ctx SystemChannel with
    | .error err => some ((none, some (Error.withMessage err "create transaction ID failed")), h1)
    | .ok txh =>
      let h2 := h1 ++ [Event.CreateChaincodeInvokeProposal txh request]
      match env.CreateChaincodeInvokeProposal h1 txh request with
      | .error err => some ((none, some (Error.withMessage err "NewProposal failed")), h2)
      | .ok tp =>
        let h3 := h2 ++ [Event.SendProposal tp targets]
        match env.SendProposal h2 reqCtx tp targets with
        | (_, some err) => some ((none, some (Error.withMessage err "SendProposal failed")), h3)
        | ([], none) => none
        | (r :: _, none) =>
          match validateResponse r with
          | some err =>
            some ((none, some (Error.withMessage err "transaction proposal failed")), h3)
          | none => some ((r.Payload, none), h3)

/-- The loop of `queryChaincode`: `responses` and `errors` are the two accumulators. -/
def queryChaincodeLoop (env : Env) (reqCtx : ReqContext) (request : ChaincodeInvokeRequest) :
    List ProposalProcessor → List Bytes → List Error → Trace →
      Option ((List Bytes × List Error) × Trace)
  | [], responses, errors, h => some ((responses, errors), h)
  | target :: rest, responses, errors, h =>
    match queryChaincodeWithTarget env reqCtx request target h with
    | none => none
    | some ((resp, err), h1) =>
      let responses := responses ++ [resp]
      let errors := match err with
        | some e => errors ++ [e]
        | none => errors
      queryChaincodeLoop env reqCtx request rest responses errors h1

/-- Function `queryChaincode`: the response list and the aggregate error it returns, and
the trace after the call; `none` when one of the per-target calls does not return. -/
def queryChaincode (env : Env) (reqCtx : ReqContext) (request : ChaincodeInvokeRequest)
    (targets : List ProposalProcessor) (h : Trace) :
    Option ((List Bytes × Option Error) × Trace) :=
  match queryChaincodeLoop env reqCtx request targets [] [] h with
  | none => none
  | some ((responses, errors), h1) => some ((responses, ToError errors), h1)

/-- Function `JoinChannel`: the error it returns and the trace after the call. -/
def JoinChannel (env : Env) (reqCtx : ReqContext) (request : JoinChannelRequest)
    (targets : List ProposalProcessor) (h : Trace) : Option (Option Error × Trace) :=
  match request.GenesisBlock with
  | none =>
    some (some (Error.new "missing block input parameter with the required genesis block"), h)
  | some genesisBlock =>
    match env.createJoinChannelInvokeRequest genesisBlock with
    | .error err =>
      some (some (Error.withMessage err "creation of join channel invoke request failed"), h)
    | .ok cir =>
      match queryChaincode env reqCtx cir targets h with
      | none => none
      | some ((_, err), h1) => some (err, h1)

/-- Function `InstallChaincode`: the responses, the transaction ID and the error it
returns, and the trace after the call.  The nil response slice is the empty list. -/
def InstallChaincode (env : Env) (reqCtx : ReqContext) (req : InstallChaincodeRequest)
    (targets : List ProposalProcessor) (h : Trace) :
    (List TransactionProposalResponse × TransactionID × Option Error) × Trace :=
  if req.Name = "" then
    (([], EmptyTransactionID, some (Error.new "chaincode name required")), h)
  else if req.Path = "" then
    (([], EmptyTransactionID, some (Error.new "chaincode path required")), h)
  else if req.Version = "" then
    (([], EmptyTransactionID, some (Error.new "chaincode version required")), h)
  else
    match req.Package with
    | none => (([], EmptyTransactionID, some (Error.new "chaincode package is required")), h)
    | some pkg =>
      let propReq : ChaincodeInstallRequest :=
        { Name := req.Name, Path := req.Path, Version := req.Version,
          Package := { Type_ := pkg.Type_, Code := pkg.Code } }
      match RequestClientContext reqCtx with
      | none =>
        (([], EmptyTransactionID,
          some (Error.new "failed get client context from reqContext for txn header")), h)
      | some ctx =>
        let h1 := h ++ [Event.NewHeader ctx SystemChannel]
        match env.NewHeader h ctx SystemChannel with
        | .error err =>
          (([], EmptyTransactionID, some (Error.withMessage err "create transaction ID failed")),
            h1)
        | .ok txh =>
          let h2 := h1 ++ [Event.CreateChaincodeInstallProposal txh propReq]
          match env.CreateChaincodeInstallProposal h1 txh propReq with
          | .error err =>
            (([], EmptyTransactionID,
              some (Error.withMessage err "creation of install chaincode proposal failed")), h2)
          | .ok prop =>
            let r := env.SendProposal h2 reqCtx prop targets
            ((r.1, prop.TxnID, r.2), h2 ++ [Event.SendProposal prop targets])

/-- The dispatch discipline of the spec for the multi-target path: starting from trace `h`,
the per-target call is made once for each target, in list order, each call starting from
the trace the previous one left; `outs` lists what the calls returned, in that order, and
`h1` is the trace after the last call. -/
def PerTargetCalls (env : Env) (reqCtx : ReqContext) (request : ChaincodeInvokeRequest) :
    Trace → List ProposalProcessor → List (Bytes × Option Error) → Trace → Prop
  | h, [], [], h1 => h1 = h
  | h, target :: rest, out :: outs, h1 =>
    ∃ hm, queryChaincodeWithTarget env reqCtx request target h = some (out, hm) ∧
      PerTargetCalls env reqCtx request hm rest outs h1
  | _, [], _ :: _, _ => False
  | _, _ :: _, [], _ => False

/-- The recorded retrieval of the newest block from the single orderer. -/
def newestRead (channelName : String) (orderer : Orderer) : Event :=
  Event.retrieveBlock [orderer] channelName SeekPosition.Newest

/-- The recorded retrieval of block `k` from the single orderer. -/
def specificRead (channelName : String) (orderer : Orderer) (k : Nat) : Event :=
  Event.retrieveBlock [orderer] channelName (SeekPosition.Specific k)

/-! ## Sample collaborators

Concrete collaborators, used to run the functions on explicit inputs. -/

/-- A request context that carries a client context. -/
def sampleCtx : ReqContext := { client := some { identity := 1 } }

/-- Collaborators that always succeed: headers get the transaction ID `tx-1`, peer `B`
answers status 500 and every other peer status 200 with the character codes of its own name
as payload, the newest block points at configuration block 7. -/
def sampleEnv : Env where
  NewHeader := fun _ _ channel =>
    .ok { id := "tx-1", creator := some [1], nonce := some [2], channelID := channel }
  CreateChaincodeInvokeProposal := fun _ txh _ => .ok { TxnID := txh.id, Proposal := some [3] }
  CreateChaincodeInstallProposal := fun _ txh _ => .ok { TxnID := txh.id, Proposal := some [4] }
  SendProposal := fun _ _ _ targets =>
    (targets.map fun t =>
      if t = "B" then { Endorser := t, Status := 500, Payload := none }
      else { Endorser := t, Status := 200, Payload := some (t.toList.map Char.toNat) }, none)
  SendBroadcast := fun _ _ _ _ => none
  Unmarshal := fun b =>
    match b with
    | some (x :: rest) => .ok { Payload := some rest, Signature := some [x] }
    | _ => .error (Error.external 1)
  Marshal := fun _ cue => .ok cue.ConfigUpdate
  TLSCertHash := fun _ => some [9]
  CreateChannelHeader := fun _ t opts =>
    .ok { headerType := t, ChannelId := opts.TxnHeader.channelID, TxId := opts.TxnHeader.id,
          TlsCertHash := opts.TLSCertHash }
  CreatePayload := fun _ _ ch data => .ok { Header := ch, Data := data }
  BroadcastPayload := fun _ _ _ _ => none
  retrieveBlock := fun _ _ _ _ pos =>
    match pos with
    | SeekPosition.Specific k => .ok { Number := k, Data := [some [k]], Metadata := [some [k]] }
    | _ => .ok { Number := 12, Data := [some [1], some [2]], Metadata := [some [7]] }
  GetLastConfigFromBlock := fun b =>
    match b.Metadata with
    | [some [k]] => .ok { Index := k }
    | _ => .error (Error.external 2)
  createJoinChannelInvokeRequest := fun b =>
    .ok { ChaincodeID := "cscc", Fcn := "JoinChain", Args := b.Data }

/-- The collaborators of `sampleEnv`, except that the orderer rejects every broadcast of
an assembled payload. -/
def rejectingEnv : Env :=
  { sampleEnv with BroadcastPayload := fun _ _ _ _ => some (Error.external 3) }

/-- The collaborators of `sampleEnv`, except that every indexed block read returns a
block with two transactions. -/
def twoTxEnv : Env :=
  { sampleEnv with
    retrieveBlock := fun _ _ _ _ pos =>
      match pos with
      | SeekPosition.Specific k =>
        .ok { Number := k, Data := [some [k], some [k + 1]], Metadata := [some [k]] }
      | _ => .ok { Number := 12, Data := [some [1]], Metadata := [some [7]] } }

/-- A channel-creation request in the assembled config-update mode. -/
def sampleCreateRequest : CreateChannelRequest :=
  { Name := "mychannel", Orderer := some "orderer.example.com", Config := some [5, 6],
    Envelope := none, Signatures := some [] }

/-- A channel-creation request that carries a pre-signed envelope and nothing else. -/
def sampleEnvelopeRequest : CreateChannelRequest :=
  { Name := "mychannel", Orderer := some "orderer.example.com", Config := none,
    Envelope := some [8, 5, 6], Signatures := none }

/-- The invoke request used in the explicit runs. -/
def sampleInvoke : ChaincodeInvokeRequest :=
  { ChaincodeID := "cscc", Fcn := "GetChannels", Args := [] }

/-! ## Channel creation -/

/-- With an orderer, a name and an envelope, `CreateChannel` is
`createChannelFromEnvelope`. -/
theorem CreateChannel_of_envelope (env : Env) (reqCtx : ReqContext)
    (request : CreateChannelRequest) (h : Trace) (o : Orderer)
    (ho : request.Orderer = some o) (hn : request.Name ≠ "") (he : request.Envelope ≠ none) :
    CreateChannel env reqCtx request h = createChannelFromEnvelope env reqCtx request o h := by
  unfold CreateChannel
  simp only [ho]
  rw [if_neg hn, if_pos he]

/-- C5: `CreateChannel` checks, in this order, that the orderer is present, that the name
is non-empty and, only when no envelope is supplied, that the config bytes and then the
signatures are present.  The first violated check decides the outcome: its error, the
empty transaction ID, and an unchanged trace (no broadcast, no transaction header).  A
request with an envelope never gets the missing-config or missing-signatures error. -/
theorem CreateChannel_validation_order (env : Env) (reqCtx : ReqContext)
    (request : CreateChannelRequest) (h : Trace) :
    (request.Orderer = none →
      CreateChannel env reqCtx request h = ((EmptyTransactionID,
        some (Error.new "missing orderer request parameter for the initialize channel")), h)) ∧
    (request.Orderer ≠ none → request.Name = "" →
      CreateChannel env reqCtx request h = ((EmptyTransactionID,
        some (Error.new "missing name request parameter for the new channel")), h)) ∧
    (request.Orderer ≠ none → request.Name ≠ "" → request.Envelope = none →
      request.Config = none →
      CreateChannel env reqCtx request h = ((EmptyTransactionID, some (Error.new
        "missing envelope request parameter containing the configuration of the new channel")),
        h)) ∧
    (request.Orderer ≠ none → request.Name ≠ "" → request.Envelope = none →
      request.Config ≠ none → request.Signatures = none →
      CreateChannel env reqCtx request h = ((EmptyTransactionID,
        some (Error.new "missing signatures request parameter for the new channel")), h)) ∧
    (request.Envelope = none → (request.Config = none ∨ request.Signatures = none) →
      (CreateChannel env reqCtx request h).1.1 = EmptyTransactionID ∧
      (CreateChannel env reqCtx request h).1.2 ≠ none ∧
      (CreateChannel env reqCtx request h).2 = h) ∧
    (request.Envelope ≠ none →
      (CreateChannel env reqCtx request h).1.2 ≠ some (Error.new
        "missing envelope request parameter containing the configuration of the new channel") ∧
      (CreateChannel env reqCtx request h).1.2 ≠
        some (Error.new "missing signatures request parameter for the new channel")) := by
  refine ⟨?_, ?_, ?_, ?_, ?_, ?_⟩
  · intro ho
    simp [CreateChannel, ho]
  · intro ho hn
    obtain ⟨o, ho⟩ := Option.ne_none_iff_exists'.mp ho
    simp [CreateChannel, ho, hn]
  · intro ho hn he hc
    obtain ⟨o, ho⟩ := Option.ne_none_iff_exists'.mp ho
    simp [CreateChannel, ho, hn, he, hc]
  · intro ho hn he hc hs
    obtain ⟨o, ho⟩ := Option.ne_none_iff_exists'.mp ho
    simp [CreateChannel, ho, hn, he, hc, hs]
  · intro he hcs
    cases ho : request.Orderer with
    | none => simp [CreateChannel, ho]
    | some o =>
      by_cases hn : request.Name = ""
      · simp [CreateChannel, ho, hn]
      · by_cases hc : request.Config = none
        · simp [CreateChannel, ho, hn, he, hc]
        · have hs : request.Signatures = none := hcs.resolve_left hc
          simp [CreateChannel, ho, hn, he, hc, hs]
  · intro he
    cases ho : request.Orderer with
    | none => simp [CreateChannel, ho]
    | some o =>
      by_cases hn : request.Name = ""
      · simp [CreateChannel, ho, hn]
      · rw [CreateChannel_of_envelope env reqCtx request h o ho hn he]
        unfold createChannelFromEnvelope
        cases extractSignedEnvelope env request.Envelope with
        | error err => simp
        | ok se =>
          cases hb : env.SendBroadcast h reqCtx o se with
          | none => simp [hb]
          | some err => simp [hb]

/-- C5 at explicit requests: no orderer; no envelope and no signatures; an envelope and
neither config nor signatures. -/
theorem CreateChannel_validation_order_witness :
    CreateChannel sampleEnv sampleCtx { sampleEnvelopeRequest with Orderer := none } [] =
      ((EmptyTransactionID,
        some (Error.new "missing orderer request parameter for the initialize channel")), []) ∧
    CreateChannel sampleEnv sampleCtx { sampleCreateRequest with Signatures := none } [] =
      ((EmptyTransactionID,
        some (Error.new "missing signatures request parameter for the new channel")), []) ∧
    (CreateChannel sampleEnv sampleCtx sampleEnvelopeRequest []).1.2 ≠ some (Error.new
      "missing envelope request parameter containing the configuration of the new channel") :=
  ⟨(CreateChannel_validation_order sampleEnv sampleCtx
      { sampleEnvelopeRequest with Orderer := none } []).1 rfl,
   (CreateChannel_validation_order sampleEnv sampleCtx
      { sampleCreateRequest with Signatures := none } []).2.2.2.1
      (by decide) (by decide) rfl (by decide) rfl,
   ((CreateChannel_validation_order sampleEnv sampleCtx sampleEnvelopeRequest []).2.2.2.2.2
      (by decide)).1⟩

/-- C6 as stated fails: when the orderer rejects the assembled payload, `CreateChannel`
returns a non-nil error together with the non-empty transaction ID of the header. -/
theorem CreateChannel_error_txid_counterexample :
    (CreateChannel rejectingEnv sampleCtx sampleCreateRequest []).1.2 =
      some (Error.withMessage (Error.external 3) "SendEnvelope failed") ∧
    (CreateChannel rejectingEnv sampleCtx sampleCreateRequest []).1.1 = "tx-1" ∧
    (CreateChannel rejectingEnv sampleCtx sampleCreateRequest []).1.1 ≠ EmptyTransactionID := by
  refine ⟨?_, ?_, ?_⟩
  · simp [CreateChannel, createOrUpdateChannel, rejectingEnv, sampleEnv, sampleCtx,
      sampleCreateRequest, RequestClientContext]
  · simp [CreateChannel, createOrUpdateChannel, rejectingEnv, sampleEnv, sampleCtx,
      sampleCreateRequest, RequestClientContext, TransactionHeader.TransactionID]
  · simp [CreateChannel, createOrUpdateChannel, rejectingEnv, sampleEnv, sampleCtx,
      sampleCreateRequest, RequestClientContext, TransactionHeader.TransactionID,
      EmptyTransactionID]

/-- C6, amended: if the call stops before a transaction header exists (a failed check, the
envelope mode, no client context, a failed header creation) the transaction ID is the
empty one; once the header `txh` is built, `CreateChannel` returns the transaction ID of
`txh` together with whatever error `createOrUpdateChannel` returns. -/
theorem CreateChannel_error_txid (env : Env) (reqCtx : ReqContext)
    (request : CreateChannelRequest) (h : Trace) :
    ((request.Orderer = none ∨ request.Name = "" ∨ request.Envelope ≠ none ∨
        request.Config = none ∨ request.Signatures = none ∨
        RequestClientContext reqCtx = none ∨
        (∃ ctx err, RequestClientContext reqCtx = some ctx ∧
          env.NewHeader h ctx request.Name = .error err)) →
      (CreateChannel env reqCtx request h).1.1 = EmptyTransactionID) ∧
    (∀ orderer ctx txh, request.Orderer = some orderer → request.Name ≠ "" →
      request.Envelope = none → request.Config ≠ none → request.Signatures ≠ none →
      RequestClientContext reqCtx = some ctx → env.NewHeader h ctx request.Name = .ok txh →
      (CreateChannel env reqCtx request h).1 =
        (txh.TransactionID,
          (createOrUpdateChannel env reqCtx txh request orderer
            (h ++ [Event.NewHeader ctx request.Name])).1)) := by
  constructor
  · intro hstop
    cases ho : request.Orderer with
    | none => simp [CreateChannel, ho]
    | some o =>
      by_cases hn : request.Name = ""
      · simp [CreateChannel, ho, hn]
      by_cases he : request.Envelope = none
      swap
      · rw [CreateChannel_of_envelope env reqCtx request h o ho hn he]
        unfold createChannelFromEnvelope
        cases extractSignedEnvelope env request.Envelope with
        | error err => simp
        | ok se =>
          cases hb : env.SendBroadcast h reqCtx o se with
          | none => simp [hb]
          | some err => simp [hb]
      by_cases hc : request.Config = none
      · simp [CreateChannel, ho, hn, he, hc]
      by_cases hs : request.Signatures = none
      · simp [CreateChannel, ho, hn, he, hc, hs]
      cases hx : RequestClientContext reqCtx with
      | none => simp [CreateChannel, ho, hn, he, hc, hs, hx]
      | some ctx =>
        cases hh : env.NewHeader h ctx request.Name with
        | error err => simp [CreateChannel, ho, hn, he, hc, hs, hx, hh]
        | ok txh =>
          exfalso
          rcases hstop with h1 | h1 | h1 | h1 | h1 | h1 | ⟨c, e, h1, h2⟩
          · simp [ho] at h1
          · exact hn h1
          · exact h1 he
          · exact hc h1
          · exact hs h1
          · simp [hx] at h1
          · rw [hx] at h1
            cases h1
            rw [hh] at h2
            cases h2
  · intro orderer ctx txh ho hn he hc hs hx hh
    simp [CreateChannel, ho, hn, he, hc, hs, hx, hh]

/-- C6, amended, at explicit inputs: the envelope mode stops before any header, and the
rejected config-update request returns the header's ID with the broadcast error. -/
theorem CreateChannel_error_txid_witness :
    (CreateChannel sampleEnv sampleCtx sampleEnvelopeRequest []).1.1 = EmptyTransactionID ∧
    (CreateChannel rejectingEnv sampleCtx sampleCreateRequest []).1 =
      ("tx-1", some (Error.withMessage (Error.external 3) "SendEnvelope failed")) :=
  ⟨(CreateChannel_error_txid sampleEnv sampleCtx sampleEnvelopeRequest []).1
      (Or.inr (Or.inr (Or.inl (by decide)))),
   (CreateChannel_error_txid rejectingEnv sampleCtx sampleCreateRequest []).2
      "orderer.example.com" { identity := 1 }
      { id := "tx-1", creator := some [1], nonce := some [2], channelID := "mychannel" }
      rfl (by decide) rfl (by decide) (by decide) rfl rfl⟩

/-- C7: for a request with an orderer, a non-empty name and an envelope, when the envelope
decodes `CreateChannel` records exactly one call, a broadcast to the orderer of the request
of the envelope whose signature and payload are those of the decoded one, and returns the
empty transaction ID with no error if that broadcast succeeds; when the envelope does not
decode it records no call and returns an error. -/
theorem CreateChannel_presigned_envelope (env : Env) (reqCtx : ReqContext)
    (request : CreateChannelRequest) (h : Trace) (orderer : Orderer)
    (ho : request.Orderer = some orderer) (hn : request.Name ≠ "")
    (he : request.Envelope ≠ none) :
    (∀ envelope, env.Unmarshal request.Envelope = .ok envelope →
      (CreateChannel env reqCtx request h).2 =
        h ++ [Event.SendBroadcast orderer
          { Signature := envelope.Signature, Payload := envelope.Payload }] ∧
      (CreateChannel env reqCtx request h).1.1 = EmptyTransactionID ∧
      ((CreateChannel env reqCtx request h).1.2 = none ↔
        env.SendBroadcast h reqCtx orderer
          { Signature := envelope.Signature, Payload := envelope.Payload } = none)) ∧
    (∀ err, env.Unmarshal request.Envelope = .error err →
      CreateChannel env reqCtx request h =
        ((EmptyTransactionID, some (Error.withMessage
          (Error.wrap err "unmarshal request envelope failed") "signed envelope not valid")),
          h)) := by
  rw [CreateChannel_of_envelope env reqCtx request h orderer ho hn he]
  constructor
  · intro envelope hu
    simp only [createChannelFromEnvelope, extractSignedEnvelope, hu]
    cases hb : env.SendBroadcast h reqCtx orderer
        { Signature := envelope.Signature, Payload := envelope.Payload } with
    | none => simp
    | some err => simp
  · intro err hu
    simp only [createChannelFromEnvelope, extractSignedEnvelope, hu]

/-- C7 at an explicit request: the envelope `[8, 5, 6]` decodes to signature `[8]` and
payload `[5, 6]`, which is the one broadcast. -/
theorem CreateChannel_presigned_envelope_witness :
    (CreateChannel sampleEnv sampleCtx sampleEnvelopeRequest []).2 =
      [Event.SendBroadcast "orderer.example.com"
        { Signature := some [8], Payload := some [5, 6] }] ∧
    (CreateChannel sampleEnv sampleCtx sampleEnvelopeRequest []).1.1 = EmptyTransactionID ∧
    ((CreateChannel sampleEnv sampleCtx sampleEnvelopeRequest []).1.2 = none ↔
      sampleEnv.SendBroadcast [] sampleCtx "orderer.example.com"
        { Signature := some [8], Payload := some [5, 6] } = none) :=
  (CreateChannel_presigned_envelope sampleEnv sampleCtx sampleEnvelopeRequest []
    "orderer.example.com" rfl (by decide) (by decide)).1
    { Payload := some [5, 6], Signature := some [8] } rfl

/-! ## Chaincode installation -/

/-- C8: `InstallChaincode` checks name, path, version and package in this order; the first
violated check decides the outcome: no responses, the empty transaction ID, the error of
that check, and an unchanged trace (no header, no proposal, no `SendProposal`). -/
theorem InstallChaincode_validation (env : Env) (reqCtx : ReqContext)
    (req : InstallChaincodeRequest) (targets : List ProposalProcessor) (h : Trace) :
    (req.Name = "" →
      InstallChaincode env reqCtx req targets h =
        (([], EmptyTransactionID, some (Error.new "chaincode name required")), h)) ∧
    (req.Name ≠ "" → req.Path = "" →
      InstallChaincode env reqCtx req targets h =
        (([], EmptyTransactionID, some (Error.new "chaincode path required")), h)) ∧
    (req.Name ≠ "" → req.Path ≠ "" → req.Version = "" →
      InstallChaincode env reqCtx req targets h =
        (([], EmptyTransactionID, some (Error.new "chaincode version required")), h)) ∧
    (req.Name ≠ "" → req.Path ≠ "" → req.Version ≠ "" → req.Package = none →
      InstallChaincode env reqCtx req targets h =
        (([], EmptyTransactionID, some (Error.new "chaincode package is required")), h)) ∧
    ((req.Name = "" ∨ req.Path = "" ∨ req.Version = "" ∨ req.Package = none) →
      (InstallChaincode env reqCtx req targets h).1.1 = [] ∧
      (InstallChaincode env reqCtx req targets h).1.2.1 = EmptyTransactionID ∧
      (InstallChaincode env reqCtx req targets h).1.2.2 ≠ none ∧
      (InstallChaincode env reqCtx req targets h).2 = h) := by
  refine ⟨?_, ?_, ?_, ?_, ?_⟩
  · intro h1
    simp [InstallChaincode, h1]
  · intro h1 h2
    simp [InstallChaincode, h1, h2]
  · intro h1 h2 h3
    simp [InstallChaincode, h1, h2, h3]
  · intro h1 h2 h3 h4
    simp [InstallChaincode, h1, h2, h3, h4]
  · intro hbad
    by_cases h1 : req.Name = ""
    · simp [InstallChaincode, h1]
    by_cases h2 : req.Path = ""
    · simp [InstallChaincode, h1, h2]
    by_cases h3 : req.Version = ""
    · simp [InstallChaincode, h1, h2, h3]
    have h4 : req.Package = none := by
      rcases hbad with hb | hb | hb | hb
      · exact absurd hb h1
      · exact absurd hb h2
      · exact absurd hb h3
      · exact hb
    simp [InstallChaincode, h1, h2, h3, h4]

/-- C8 at an explicit request: name and path present, empty version. -/
theorem InstallChaincode_validation_witness :
    InstallChaincode sampleEnv sampleCtx
        { Name := "example_cc", Path := "github.com/example_cc", Version := "",
          Package := some { Type_ := 1, Code := some [1, 2] } } ["A", "B"] [] =
      (([], EmptyTransactionID, some (Error.new "chaincode version required")), []) :=
  (InstallChaincode_validation sampleEnv sampleCtx
    { Name := "example_cc", Path := "github.com/example_cc", Version := "",
      Package := some { Type_ := 1, Code := some [1, 2] } } ["A", "B"] []).2.2.1
    (by decide) (by decide) rfl

/-! ## Resolving the last configuration block -/

/-- C3: `LastConfigFromOrderer` first reads the block at `Newest` from the one orderer.  If
that read fails, or if decoding the last-config index of the newest block fails, it returns
an error and that read is the only one.  If both succeed with index `k`, exactly one more
read follows, at `Specific k`: when that second read fails the call returns its error, and
when it answers a block with one transaction the call returns that very block with no
error, never the newest block.  A call that returns no error made exactly these two
reads and returns the answer of the second. -/
theorem LastConfigFromOrderer_two_reads (env : Env) (reqCtx : ReqContext)
    (channelName : String) (orderer : Orderer) (h : Trace) :
    (∀ err, env.retrieveBlock h reqCtx [orderer] channelName SeekPosition.Newest = .error err →
      LastConfigFromOrderer env reqCtx channelName orderer h =
        ((none, some err), h ++ [newestRead channelName orderer])) ∧
    (∀ newest err,
      env.retrieveBlock h reqCtx [orderer] channelName SeekPosition.Newest = .ok newest →
      env.GetLastConfigFromBlock newest = .error err →
      LastConfigFromOrderer env reqCtx channelName orderer h =
        ((none, some (Error.wrap err "GetLastConfigFromBlock failed")),
          h ++ [newestRead channelName orderer])) ∧
    (∀ newest lastConfig,
      env.retrieveBlock h reqCtx [orderer] channelName SeekPosition.Newest = .ok newest →
      env.GetLastConfigFromBlock newest = .ok lastConfig →
      (LastConfigFromOrderer env reqCtx channelName orderer h).2 =
        h ++ [newestRead channelName orderer, specificRead channelName orderer lastConfig.Index] ∧
      (∀ block, (LastConfigFromOrderer env reqCtx channelName orderer h).1.1 = some block →
        env.retrieveBlock (h ++ [newestRead channelName orderer]) reqCtx [orderer] channelName
          (SeekPosition.Specific lastConfig.Index) = .ok block) ∧
      (∀ err,
        env.retrieveBlock (h ++ [newestRead channelName orderer]) reqCtx [orderer] channelName
          (SeekPosition.Specific lastConfig.Index) = .error err →
        LastConfigFromOrderer env reqCtx channelName orderer h =
          ((none, some (Error.withMessage err "retrieve block failed")),
            h ++ [newestRead channelName orderer,
              specificRead channelName orderer lastConfig.Index])) ∧
      (∀ block,
        env.retrieveBlock (h ++ [newestRead channelName orderer]) reqCtx [orderer] channelName
          (SeekPosition.Specific lastConfig.Index) = .ok block →
        block.Data.length = 1 →
        LastConfigFromOrderer env reqCtx channelName orderer h =
          ((some block, none),
            h ++ [newestRead channelName orderer,
              specificRead channelName orderer lastConfig.Index]))) ∧
    ((LastConfigFromOrderer env reqCtx channelName orderer h).1.2 = none →
      ∃ newest k block,
        env.retrieveBlock h reqCtx [orderer] channelName SeekPosition.Newest = .ok newest ∧
        env.GetLastConfigFromBlock newest = .ok { Index := k } ∧
        env.retrieveBlock (h ++ [newestRead channelName orderer]) reqCtx [orderer] channelName
          (SeekPosition.Specific k) = .ok block ∧
        LastConfigFromOrderer env reqCtx channelName orderer h =
          ((some block, none),
            h ++ [newestRead channelName orderer, specificRead channelName orderer k])) := by
  refine ⟨?_, ?_, ?_, ?_⟩
  · intro err h1
    simp [LastConfigFromOrderer, newNewestSeekPosition, newestRead, h1]
  · intro newest err h1 h2
    simp [LastConfigFromOrderer, newNewestSeekPosition, newestRead, h1, h2]
  · intro newest lastConfig h1 h2
    simp only [LastConfigFromOrderer, newNewestSeekPosition, newSpecificSeekPosition, newestRead,
      specificRead, h1, h2]
    cases h3 : env.retrieveBlock (h ++ [Event.retrieveBlock [orderer] channelName
        SeekPosition.Newest]) reqCtx [orderer] channelName
        (SeekPosition.Specific lastConfig.Index) with
    | error err => simp
    | ok block =>
      by_cases hl : block.Data.length = 1
      · refine ⟨by simp [hl], by simp [hl], by simp, ?_⟩
        intro block1 hb hl1
        cases hb
        simp [hl]
      · refine ⟨by simp [hl], by simp [hl], by simp, ?_⟩
        intro block1 hb hl1
        cases hb
        exact absurd hl1 hl
  · intro hok
    cases h1 : env.retrieveBlock h reqCtx [orderer] channelName SeekPosition.Newest with
    | error err =>
      simp [LastConfigFromOrderer, newNewestSeekPosition, h1] at hok
    | ok newest =>
      cases h2 : env.GetLastConfigFromBlock newest with
      | error err =>
        simp [LastConfigFromOrderer, newNewestSeekPosition, h1, h2] at hok
      | ok lastConfig =>
        cases h3 : env.retrieveBlock (h ++ [Event.retrieveBlock [orderer] channelName
            SeekPosition.Newest]) reqCtx [orderer] channelName
            (SeekPosition.Specific lastConfig.Index) with
        | error err =>
          simp [LastConfigFromOrderer, newNewestSeekPosition, newSpecificSeekPosition, h1, h2,
            h3] at hok
        | ok block =>
          by_cases hl : block.Data.length = 1
          · refine ⟨newest, lastConfig.Index, block, rfl, h2, ?_, ?_⟩
            · simpa [newestRead] using h3
            · simp [LastConfigFromOrderer, newNewestSeekPosition, newSpecificSeekPosition,
                newestRead, specificRead, h1, h2, h3, hl]
          · simp [LastConfigFromOrderer, newNewestSeekPosition, newSpecificSeekPosition, h1, h2,
              h3, hl] at hok

/-- C3 at explicit collaborators: the newest block (number 12) reports last-config index 7,
so the second read is for block 7, and the call returns block 7, not block 12, after
exactly the two reads `Newest` and `Specific 7`. -/
theorem LastConfigFromOrderer_two_reads_witness :
    LastConfigFromOrderer sampleEnv sampleCtx "mychannel" "orderer.example.com" [] =
      ((some { Number := 7, Data := [some [7]], Metadata := [some [7]] }, none),
        [] ++ [newestRead "mychannel" "orderer.example.com",
          specificRead "mychannel" "orderer.example.com" 7]) :=
  ((LastConfigFromOrderer_two_reads sampleEnv sampleCtx "mychannel" "orderer.example.com"
    []).2.2.1
    { Number := 12, Data := [some [1], some [2]], Metadata := [some [7]] } { Index := 7 }
    rfl rfl).2.2.2
    { Number := 7, Data := [some [7]], Metadata := [some [7]] } rfl rfl

/-- C4: a block that `LastConfigFromOrderer` returns without error has exactly one
transaction entry; and when the block read at `Specific k` has a transaction count other
than one, the call returns an error and no block. -/
theorem LastConfigFromOrderer_one_transaction (env : Env) (reqCtx : ReqContext)
    (channelName : String) (orderer : Orderer) (h : Trace) :
    (∀ block, (LastConfigFromOrderer env reqCtx channelName orderer h).1 = (some block, none) →
      block.Data.length = 1) ∧
    (∀ newest lastConfig block,
      env.retrieveBlock h reqCtx [orderer] channelName SeekPosition.Newest = .ok newest →
      env.GetLastConfigFromBlock newest = .ok lastConfig →
      env.retrieveBlock (h ++ [newestRead channelName orderer]) reqCtx [orderer] channelName
        (SeekPosition.Specific lastConfig.Index) = .ok block →
      block.Data.length ≠ 1 →
      (LastConfigFromOrderer env reqCtx channelName orderer h).1 =
        (none, some (Error.new "apiconfig block must contain one transaction"))) := by
  constructor
  · intro block hret
    cases h1 : env.retrieveBlock h reqCtx [orderer] channelName SeekPosition.Newest with
    | error err =>
      simp [LastConfigFromOrderer, newNewestSeekPosition, h1] at hret
    | ok newest =>
      cases h2 : env.GetLastConfigFromBlock newest with
      | error err =>
        simp [LastConfigFromOrderer, newNewestSeekPosition, h1, h2] at hret
      | ok lastConfig =>
        cases h3 : env.retrieveBlock (h ++ [Event.retrieveBlock [orderer] channelName
            SeekPosition.Newest]) reqCtx [orderer] channelName
            (SeekPosition.Specific lastConfig.Index) with
        | error err =>
          simp [LastConfigFromOrderer, newNewestSeekPosition, newSpecificSeekPosition, h1, h2,
            h3] at hret
        | ok blk =>
          by_cases hl : blk.Data.length = 1
          · simp [LastConfigFromOrderer, newNewestSeekPosition, newSpecificSeekPosition, h1, h2,
              h3, hl] at hret
            rw [← hret]
            exact hl
          · simp [LastConfigFromOrderer, newNewestSeekPosition, newSpecificSeekPosition, h1, h2,
              h3, hl] at hret
  · intro newest lastConfig block h1 h2 h3 hl
    simp only [newestRead] at h3
    simp [LastConfigFromOrderer, newNewestSeekPosition, newSpecificSeekPosition, h1, h2, h3, hl]

/-- C4 at explicit collaborators: block 7 is returned with its single transaction, and a
block 7 that carries two transactions is refused. -/
theorem LastConfigFromOrderer_one_transaction_witness :
    ({ Number := 7, Data := [some [7]], Metadata := [some [7]] } : Block).Data.length = 1 ∧
    (LastConfigFromOrderer twoTxEnv sampleCtx "mychannel" "orderer.example.com" []).1 =
      (none, some (Error.new "apiconfig block must contain one transaction")) :=
  ⟨(LastConfigFromOrderer_one_transaction sampleEnv sampleCtx "mychannel"
      "orderer.example.com" []).1 { Number := 7, Data := [some [7]], Metadata := [some [7]] } rfl,
   (LastConfigFromOrderer_one_transaction twoTxEnv sampleCtx "mychannel"
      "orderer.example.com" []).2 { Number := 12, Data := [some [1]], Metadata := [some [7]] }
      { Index := 7 } { Number := 7, Data := [some [7], some [8]], Metadata := [some [7]] }
      rfl rfl rfl (by decide)⟩

/-! ## Querying one peer -/

/-- C9: when the client context, the header, the proposal and `SendProposal` all succeed
and the first response is `r`, `queryChaincodeWithTarget` records exactly one
`SendProposal`, whose target list is the one target, and returns the payload of `r` with no
error if and only if the status of `r` is 200; for any other status it returns the nil
payload and an error built from the endorser and the status of `r`. -/
theorem queryChaincodeWithTarget_status (env : Env) (reqCtx : ReqContext)
    (request : ChaincodeInvokeRequest) (target : ProposalProcessor) (h : Trace)
    (ctx : ClientContext) (txh : TransactionHeader) (tp : TransactionProposal)
    (r : TransactionProposalResponse) (rest : List TransactionProposalResponse)
    (hctx : RequestClientContext reqCtx = some ctx)
    (hh : env.NewHeader h ctx SystemChannel = .ok txh)
    (hp : env.CreateChaincodeInvokeProposal (h ++ [Event.NewHeader ctx SystemChannel]) txh
      request = .ok tp)
    (hs : env.SendProposal
      (h ++ [Event.NewHeader ctx SystemChannel] ++
        [Event.CreateChaincodeInvokeProposal txh request]) reqCtx tp [target] =
      (r :: rest, none)) :
    ∃ out,
      queryChaincodeWithTarget env reqCtx request target h =
        some (out, h ++ [Event.NewHeader ctx SystemChannel] ++
          [Event.CreateChaincodeInvokeProposal txh request] ++
          [Event.SendProposal tp [target]]) ∧
      (out = (r.Payload, none) ↔ r.Status = 200) ∧
      (r.Status ≠ 200 →
        out = (none, some (Error.withMessage
          (Error.errorf "bad status from %s (%d)" r.Endorser r.Status)
          "transaction proposal failed"))) := by
  have hs1 := hs
  simp only [List.append_assoc, List.cons_append, List.nil_append] at hs1
  by_cases hst : r.Status = 200
  · refine ⟨(r.Payload, none), ?_, ?_, ?_⟩
    · simp [queryChaincodeWithTarget, hctx, hh, hp, hs1, validateResponse, StatusOK, hst]
    · simp [hst]
    · intro hne
      exact absurd hst hne
  · refine ⟨(none, some (Error.withMessage
      (Error.errorf "bad status from %s (%d)" r.Endorser r.Status)
      "transaction proposal failed")), ?_, ?_, ?_⟩
    · simp [queryChaincodeWithTarget, hctx, hh, hp, hs1, validateResponse, StatusOK, hst]
    · simp [hst]
    · intro _
      rfl

/-- C9 at explicit collaborators: peer `A` answers 200 and its payload is returned. -/
theorem queryChaincodeWithTarget_status_witness :
    ∃ out,
      queryChaincodeWithTarget sampleEnv sampleCtx
          { ChaincodeID := "cscc", Fcn := "GetChannels", Args := [] } "A" [] =
        some (out, [] ++ [Event.NewHeader { identity := 1 } SystemChannel] ++
          [Event.CreateChaincodeInvokeProposal
            { id := "tx-1", creator := some [1], nonce := some [2], channelID := SystemChannel }
            { ChaincodeID := "cscc", Fcn := "GetChannels", Args := [] }] ++
          [Event.SendProposal { TxnID := "tx-1", Proposal := some [3] } ["A"]]) ∧
      (out = (some [65], none) ↔ (200 : Int) = 200) ∧
      ((200 : Int) ≠ 200 →
        out = (none, some (Error.withMessage
          (Error.errorf "bad status from %s (%d)" "A" 200) "transaction proposal failed"))) :=
  queryChaincodeWithTarget_status sampleEnv sampleCtx
    { ChaincodeID := "cscc", Fcn := "GetChannels", Args := [] } "A" [] { identity := 1 }
    { id := "tx-1", creator := some [1], nonce := some [2], channelID := SystemChannel }
    { TxnID := "tx-1", Proposal := some [3] }
    { Endorser := "A", Status := 200, Payload := some [65] } [] rfl rfl rfl rfl

/-! ## Querying several peers -/

/-- A per-target call that returns an error returns the nil payload. -/
theorem queryChaincodeWithTarget_nil_on_error (env : Env) (reqCtx : ReqContext)
    (request : ChaincodeInvokeRequest) (target : ProposalProcessor) (h h1 : Trace)
    (payload : Bytes) (err : Error)
    (hcall : queryChaincodeWithTarget env reqCtx request target h =
      some ((payload, some err), h1)) :
    payload = none := by
  unfold queryChaincodeWithTarget at hcall
  cases hctx : RequestClientContext reqCtx with
  | none =>
    simp only [hctx] at hcall
    cases hcall
    rfl
  | some ctx =>
    simp only [hctx] at hcall
    cases hh : env.NewHeader h ctx SystemChannel with
    | error e =>
      simp only [hh] at hcall
      cases hcall
      rfl
    | ok txh =>
      simp only [hh] at hcall
      cases hp : env.CreateChaincodeInvokeProposal (h ++ [Event.NewHeader ctx SystemChannel]) txh
          request with
      | error e =>
        simp only [hp] at hcall
        cases hcall
        rfl
      | ok tp =>
        simp only [hp] at hcall
        split at hcall
        · cases hcall
          rfl
        · cases hcall
        · split at hcall
          · cases hcall
            rfl
          · cases hcall

/-- A per-target call returns whenever `SendProposal` never reports success with an empty
response list. -/
theorem queryChaincodeWithTarget_returns (env : Env) (reqCtx : ReqContext)
    (request : ChaincodeInvokeRequest) (target : ProposalProcessor) (h : Trace)
    (hsend : ∀ h0 proposal targets, env.SendProposal h0 reqCtx proposal targets ≠ ([], none)) :
    queryChaincodeWithTarget env reqCtx request target h ≠ none := by
  unfold queryChaincodeWithTarget
  cases hctx : RequestClientContext reqCtx with
  | none => simp
  | some ctx =>
    simp only []
    cases hh : env.NewHeader h ctx SystemChannel with
    | error e => simp
    | ok txh =>
      simp only []
      cases hp : env.CreateChaincodeInvokeProposal (h ++ [Event.NewHeader ctx SystemChannel]) txh
          request with
      | error e => simp
      | ok tp =>
        simp only []
        split
        · simp
        · next heq => exact absurd heq (hsend _ _ _)
        · split
          · simp
          · simp

/-- Calls made in order return as many results as there are targets. -/
theorem PerTargetCalls_length (env : Env) (reqCtx : ReqContext)
    (request : ChaincodeInvokeRequest) :
    ∀ (targets : List ProposalProcessor) (outs : List (Bytes × Option Error)) (h h1 : Trace),
      PerTargetCalls env reqCtx request h targets outs h1 → outs.length = targets.length
  | [], [], _, _, _ => rfl
  | [], _ :: _, _, _, hc => by simp [PerTargetCalls] at hc
  | _ :: _, [], _, _, hc => by simp [PerTargetCalls] at hc
  | _ :: rest, _ :: outs, _, h1, hc => by
    obtain ⟨hm, _, hrest⟩ := hc
    simp [PerTargetCalls_length env reqCtx request rest outs hm h1 hrest]

/-- In calls made in order, a result with an error has the nil payload. -/
theorem PerTargetCalls_nil_on_error (env : Env) (reqCtx : ReqContext)
    (request : ChaincodeInvokeRequest) :
    ∀ (targets : List ProposalProcessor) (outs : List (Bytes × Option Error)) (h h1 : Trace),
      PerTargetCalls env reqCtx request h targets outs h1 →
      ∀ out ∈ outs, out.2 ≠ none → out.1 = none
  | [], [], _, _, _ => by simp
  | [], _ :: _, _, _, hc => by simp [PerTargetCalls] at hc
  | _ :: _, [], _, _, _ => by simp
  | target :: rest, (payload, err) :: outs, h, h1, hc => by
    obtain ⟨hm, hcall, hrest⟩ := hc
    intro out hmem hne
    rcases List.mem_cons.mp hmem with heq | hin
    · subst heq
      cases err with
      | none => exact absurd rfl hne
      | some e =>
        exact queryChaincodeWithTarget_nil_on_error env reqCtx request target h hm payload e hcall
    · exact PerTargetCalls_nil_on_error env reqCtx request rest outs hm h1 hrest out hin hne

/-- The loop of `queryChaincode`, when every per-target call returns: the calls are made in
order, the payloads are appended to `responses` and the errors to `errors`. -/
theorem queryChaincodeLoop_calls (env : Env) (reqCtx : ReqContext)
    (request : ChaincodeInvokeRequest) :
    ∀ (targets : List ProposalProcessor) (responses : List Bytes) (errors : List Error)
      (h : Trace),
      (∀ t ∈ targets, ∀ h0, queryChaincodeWithTarget env reqCtx request t h0 ≠ none) →
      ∃ outs h1, PerTargetCalls env reqCtx request h targets outs h1 ∧
        queryChaincodeLoop env reqCtx request targets responses errors h =
          some ((responses ++ outs.map Prod.fst, errors ++ outs.filterMap Prod.snd), h1)
  | [], responses, errors, h, _ => ⟨[], h, rfl, by simp [queryChaincodeLoop]⟩
  | target :: rest, responses, errors, h, hret => by
    have hsome := hret target (List.mem_cons_self _ _) h
    obtain ⟨⟨⟨payload, err⟩, hm⟩, hcall⟩ := Option.ne_none_iff_exists'.mp hsome
    have hrest : ∀ t ∈ rest, ∀ h0, queryChaincodeWithTarget env reqCtx request t h0 ≠ none :=
      fun t ht h0 => hret t (List.mem_cons_of_mem _ ht) h0
    cases err with
    | none =>
      obtain ⟨outs, h1, hcalls, hloop⟩ :=
        queryChaincodeLoop_calls env reqCtx request rest (responses ++ [payload]) errors hm hrest
      refine ⟨(payload, none) :: outs, h1, ⟨hm, hcall, hcalls⟩, ?_⟩
      simp [queryChaincodeLoop, hcall, hloop]
    | some e =>
      obtain ⟨outs, h1, hcalls, hloop⟩ :=
        queryChaincodeLoop_calls env reqCtx request rest (responses ++ [payload]) (errors ++ [e])
          hm hrest
      refine ⟨(payload, some e) :: outs, h1, ⟨hm, hcall, hcalls⟩, ?_⟩
      simp [queryChaincodeLoop, hcall, hloop]

/-- Function `queryChaincode`, when every per-target call returns: the calls are made in
order, the response list holds their payloads and the aggregate error is built from their
errors. -/
theorem queryChaincode_calls (env : Env) (reqCtx : ReqContext)
    (request : ChaincodeInvokeRequest) (targets : List ProposalProcessor) (h : Trace)
    (hret : ∀ t ∈ targets, ∀ h0, queryChaincodeWithTarget env reqCtx request t h0 ≠ none) :
    ∃ outs h1, PerTargetCalls env reqCtx request h targets outs h1 ∧
      queryChaincode env reqCtx request targets h =
        some ((outs.map Prod.fst, ToError (outs.filterMap Prod.snd)), h1) := by
  obtain ⟨outs, h1, hcalls, hloop⟩ :=
    queryChaincodeLoop_calls env reqCtx request targets [] [] h hret
  exact ⟨outs, h1, hcalls, by simp [queryChaincode, hloop]⟩

/-- The aggregate error is nil exactly when no error was collected. -/
theorem ToError_eq_none_iff (errs : List Error) : ToError errs = none ↔ errs = [] := by
  cases errs with
  | nil => simp [ToError]
  | cons e es => simp [ToError]

/-- No error is collected exactly when no call returned one. -/
theorem filterMap_snd_eq_nil_iff (outs : List (Bytes × Option Error)) :
    outs.filterMap Prod.snd = [] ↔ ∀ out ∈ outs, out.2 = none := by
  induction outs with
  | nil => simp
  | cons out outs ih =>
    obtain ⟨payload, err⟩ := out
    cases err with
    | none => simp
    | some e => simp

/-- With the sample collaborators every per-target call returns. -/
theorem sampleEnv_returns (request : ChaincodeInvokeRequest) (targets : List ProposalProcessor) :
    ∀ t ∈ targets, ∀ h0, queryChaincodeWithTarget sampleEnv sampleCtx request t h0 ≠ none := by
  intro t _ h0
  by_cases hb : t = "B"
  · simp [queryChaincodeWithTarget, sampleEnv, sampleCtx, RequestClientContext, hb,
      validateResponse, StatusOK]
  · simp [queryChaincodeWithTarget, sampleEnv, sampleCtx, RequestClientContext, hb,
      validateResponse, StatusOK]

/-- C1: when each per-target call returns, `queryChaincode` makes the per-target call once
for each target, in list order, whatever the earlier calls returned; the result list has
one entry per target, the entry of a target is the payload its call returned, and that
payload is nil when the call returned an error. -/
theorem queryChaincode_all_targets (env : Env) (reqCtx : ReqContext)
    (request : ChaincodeInvokeRequest) (targets : List ProposalProcessor) (h : Trace)
    (hret : ∀ t ∈ targets, ∀ h0, queryChaincodeWithTarget env reqCtx request t h0 ≠ none) :
    ∃ outs h1 err,
      PerTargetCalls env reqCtx request h targets outs h1 ∧
      queryChaincode env reqCtx request targets h = some ((outs.map Prod.fst, err), h1) ∧
      (outs.map Prod.fst).length = targets.length ∧
      (∀ (i : Nat) (payload : Bytes), (outs.map Prod.fst)[i]? = some payload →
        ∃ (target : ProposalProcessor) (out : Bytes × Option Error),
          targets[i]? = some target ∧ outs[i]? = some out ∧ payload = out.1 ∧
          (out.2 ≠ none → payload = none)) := by
  obtain ⟨outs, h1, hcalls, hq⟩ := queryChaincode_calls env reqCtx request targets h hret
  have hlen := PerTargetCalls_length env reqCtx request targets outs h h1 hcalls
  refine ⟨outs, h1, ToError (outs.filterMap Prod.snd), hcalls, hq, by simpa using hlen, ?_⟩
  intro i payload hi
  rw [List.getElem?_map] at hi
  cases ho : outs[i]? with
  | none => simp [ho] at hi
  | some out =>
    simp only [ho, Option.map_some'] at hi
    have hlt : i < outs.length := by
      by_contra hge
      rw [List.getElem?_eq_none (Nat.le_of_not_lt hge)] at ho
      cases ho
    have hlt2 : i < targets.length := hlen ▸ hlt
    refine ⟨targets[i], out, List.getElem?_eq_getElem hlt2, rfl, (Option.some.inj hi).symm, ?_⟩
    intro hne
    rw [← Option.some.inj hi]
    exact PerTargetCalls_nil_on_error env reqCtx request targets outs h h1 hcalls out
      (List.getElem?_mem ho) hne

/-- C1 at explicit collaborators: of the targets `A`, `B`, `C` only `B` fails; the result
has three entries, the payloads of `A` and `C` at positions 0 and 2 and nil at position 1,
and `C` is still sent its proposal. -/
theorem queryChaincode_all_targets_witness :
    (∃ outs h1 err,
      PerTargetCalls sampleEnv sampleCtx sampleInvoke [] ["A", "B", "C"] outs h1 ∧
      queryChaincode sampleEnv sampleCtx sampleInvoke ["A", "B", "C"] [] =
        some ((outs.map Prod.fst, err), h1) ∧
      (outs.map Prod.fst).length = ["A", "B", "C"].length ∧
      (∀ (i : Nat) (payload : Bytes), (outs.map Prod.fst)[i]? = some payload →
        ∃ (target : ProposalProcessor) (out : Bytes × Option Error),
          ["A", "B", "C"][i]? = some target ∧ outs[i]? = some out ∧ payload = out.1 ∧
          (out.2 ≠ none → payload = none))) ∧
    (queryChaincode sampleEnv sampleCtx sampleInvoke ["A", "B", "C"] []).map
        (fun r => r.1.1) = some [some [65], none, some [67]] ∧
    (queryChaincode sampleEnv sampleCtx sampleInvoke ["A", "B", "C"] []).map
        (fun r => r.2.filterMap fun e =>
          match e with
          | Event.SendProposal _ ts => some ts
          | _ => none) = some [["A"], ["B"], ["C"]] :=
  ⟨queryChaincode_all_targets sampleEnv sampleCtx sampleInvoke ["A", "B", "C"] []
      (sampleEnv_returns sampleInvoke ["A", "B", "C"]), rfl, rfl⟩

/-- The collected errors are the errors of the failing calls: one entry per call that
returned an error, in call order. -/
theorem filterMap_snd_map_some (outs : List (Bytes × Option Error)) :
    (outs.filterMap Prod.snd).map some = (outs.map Prod.snd).filter fun e => e.isSome := by
  induction outs with
  | nil => rfl
  | cons out outs ih =>
    obtain ⟨payload, err⟩ := out
    cases err with
    | none => simpa using ih
    | some e => simpa using ih

/-- C2: when each per-target call returns, the errors `queryChaincode` collects are the
errors returned by the failing per-target calls, one entry per failing call, in target
order; and the aggregate error it returns is non-nil if and only if at least one call
failed, in which case it wraps exactly the collected errors. -/
theorem queryChaincode_aggregate_error (env : Env) (reqCtx : ReqContext)
    (request : ChaincodeInvokeRequest) (targets : List ProposalProcessor) (h : Trace)
    (hret : ∀ t ∈ targets, ∀ h0, queryChaincodeWithTarget env reqCtx request t h0 ≠ none) :
    ∃ (outs : List (Bytes × Option Error)) (h1 : Trace) (responses : List Bytes)
      (collected : List Error),
      PerTargetCalls env reqCtx request h targets outs h1 ∧
      queryChaincode env reqCtx request targets h =
        some ((responses, ToError collected), h1) ∧
      collected.map some = (outs.map Prod.snd).filter (fun e => e.isSome) ∧
      (ToError collected ≠ none ↔ ∃ out ∈ outs, out.2 ≠ none) ∧
      (collected ≠ [] → ToError collected = some (Error.aggregate collected)) := by
  obtain ⟨outs, h1, hcalls, hq⟩ := queryChaincode_calls env reqCtx request targets h hret
  refine ⟨outs, h1, outs.map Prod.fst, outs.filterMap Prod.snd, hcalls, hq,
    filterMap_snd_map_some outs, ?_, ?_⟩
  · rw [Ne, ToError_eq_none_iff, filterMap_snd_eq_nil_iff]
    push_neg
    rfl
  · intro hne
    cases hc : outs.filterMap Prod.snd with
    | nil => exact absurd hc hne
    | cons e es => rfl

/-- C2 at explicit collaborators: of the targets `A`, `B`, `C` only `B` fails; exactly one
error is collected, the bad-status error of `B`. -/
theorem queryChaincode_aggregate_error_witness :
    (∃ (outs : List (Bytes × Option Error)) (h1 : Trace) (responses : List Bytes)
      (collected : List Error),
      PerTargetCalls sampleEnv sampleCtx sampleInvoke [] ["A", "B", "C"] outs h1 ∧
      queryChaincode sampleEnv sampleCtx sampleInvoke ["A", "B", "C"] [] =
        some ((responses, ToError collected), h1) ∧
      collected.map some = (outs.map Prod.snd).filter (fun e => e.isSome) ∧
      (ToError collected ≠ none ↔ ∃ out ∈ outs, out.2 ≠ none) ∧
      (collected ≠ [] → ToError collected = some (Error.aggregate collected))) ∧
    (queryChaincode sampleEnv sampleCtx sampleInvoke ["A", "B", "C"] []).map
        (fun r => r.1.2) =
      some (some (Error.aggregate [Error.withMessage
        (Error.errorf "bad status from %s (%d)" "B" 500) "transaction proposal failed"])) :=
  ⟨queryChaincode_aggregate_error sampleEnv sampleCtx sampleInvoke ["A", "B", "C"] []
      (sampleEnv_returns sampleInvoke ["A", "B", "C"]), rfl⟩

/-! ## Joining a channel -/

/-- C10: `JoinChannel` returns the missing-block error, with no call recorded, when the
genesis block is nil, and the wrapped build error, with no call recorded, when the join
invoke request cannot be built.  Otherwise it returns the aggregate error of
`queryChaincode` on the built request and drops the payloads; when each per-target call
returns this error is nil if and only if no per-target call failed, and it is nil for the
empty target list. -/
theorem JoinChannel_error (env : Env) (reqCtx : ReqContext) (request : JoinChannelRequest)
    (targets : List ProposalProcessor) (h : Trace) :
    (request.GenesisBlock = none →
      JoinChannel env reqCtx request targets h = some (some (Error.new
        "missing block input parameter with the required genesis block"), h)) ∧
    (∀ block err, request.GenesisBlock = some block →
      env.createJoinChannelInvokeRequest block = .error err →
      JoinChannel env reqCtx request targets h = some (some (Error.withMessage err
        "creation of join channel invoke request failed"), h)) ∧
    (∀ block cir, request.GenesisBlock = some block →
      env.createJoinChannelInvokeRequest block = .ok cir →
      JoinChannel env reqCtx request targets h =
        (queryChaincode env reqCtx cir targets h).map (fun r => (r.1.2, r.2)) ∧
      (targets = [] → JoinChannel env reqCtx request targets h = some (none, h)) ∧
      ((∀ t ∈ targets, ∀ h0, queryChaincodeWithTarget env reqCtx cir t h0 ≠ none) →
        ∃ (outs : List (Bytes × Option Error)) (h1 : Trace) (err : Option Error),
          PerTargetCalls env reqCtx cir h targets outs h1 ∧
          JoinChannel env reqCtx request targets h = some (err, h1) ∧
          (err ≠ none ↔ ∃ out ∈ outs, out.2 ≠ none))) := by
  refine ⟨?_, ?_, ?_⟩
  · intro hg
    simp [JoinChannel, hg]
  · intro block err hg hb
    simp [JoinChannel, hg, hb]
  · intro block cir hg hb
    have hjoin : JoinChannel env reqCtx request targets h =
        (queryChaincode env reqCtx cir targets h).map (fun r => (r.1.2, r.2)) := by
      simp only [JoinChannel, hg, hb]
      cases queryChaincode env reqCtx cir targets h with
      | none => rfl
      | some r => rfl
    refine ⟨hjoin, ?_, ?_⟩
    · intro ht
      rw [hjoin, ht]
      rfl
    · intro hret
      obtain ⟨outs, h1, hcalls, hq⟩ := queryChaincode_calls env reqCtx cir targets h hret
      refine ⟨outs, h1, ToError (outs.filterMap Prod.snd), hcalls, ?_, ?_⟩
      · rw [hjoin, hq]
        rfl
      · rw [Ne, ToError_eq_none_iff, filterMap_snd_eq_nil_iff]
        push_neg
        rfl

/-- C10 at explicit collaborators: joining the peers `A` and `C` returns no error, joining
no peer returns no error and records nothing, and a nil genesis block is refused. -/
theorem JoinChannel_error_witness :
    JoinChannel sampleEnv sampleCtx { GenesisBlock := none } ["A", "C"] [] =
      some (some (Error.new
        "missing block input parameter with the required genesis block"), []) ∧
    JoinChannel sampleEnv sampleCtx
        { GenesisBlock := some { Number := 0, Data := [some [1]], Metadata := [] } } [] [] =
      some (none, []) ∧
    ∃ (outs : List (Bytes × Option Error)) (h1 : Trace) (err : Option Error),
      PerTargetCalls sampleEnv sampleCtx
        { ChaincodeID := "cscc", Fcn := "JoinChain", Args := [some [1]] } [] ["A", "C"] outs h1 ∧
      JoinChannel sampleEnv sampleCtx
          { GenesisBlock := some { Number := 0, Data := [some [1]], Metadata := [] } }
          ["A", "C"] [] = some (err, h1) ∧
      (err ≠ none ↔ ∃ out ∈ outs, out.2 ≠ none) :=
  ⟨(JoinChannel_error sampleEnv sampleCtx { GenesisBlock := none } ["A", "C"] []).1 rfl,
   ((JoinChannel_error sampleEnv sampleCtx
      { GenesisBlock := some { Number := 0, Data := [some [1]], Metadata := [] } } [] []).2.2
      { Number := 0, Data := [some [1]], Metadata := [] }
      { ChaincodeID := "cscc", Fcn := "JoinChain", Args := [some [1]] } rfl rfl).2.1 rfl,
   ((JoinChannel_error sampleEnv sampleCtx
      { GenesisBlock := some { Number := 0, Data := [some [1]], Metadata := [] } }
      ["A", "C"] []).2.2
      { Number := 0, Data := [some [1]], Metadata := [] }
      { ChaincodeID := "cscc", Fcn := "JoinChain", Args := [some [1]] } rfl rfl).2.2
      (sampleEnv_returns _ ["A", "C"])⟩

end Resource
